import Mathlib

/-!
Verification of TitanMonitor's scheduling and health/quality-assessment
engine: a shallow embedding of the quality-score and aggregation logic of
src/services/webex_api.py, of the health-check / test-call orchestration of
src/services/scheduler.py, and of the retention sweep, together with
theorems settling the specification claims. Metric values and timestamps
are modelled as rationals (the Python floats involved carry exact decimal
values in every computation the claims touch), fallible external calls as
explicit outcome types.
-/

namespace TitanMonitor

/-! ## Configuration constants (src/config.py) -/

/-- Config.DEFAULT_PACKET_LOSS_THRESHOLD = 5.0 (percent). -/
def DEFAULT_PACKET_LOSS_THRESHOLD : ℚ := 5

/-- Config.DEFAULT_JITTER_THRESHOLD = 30.0 (milliseconds). -/
def DEFAULT_JITTER_THRESHOLD : ℚ := 30

/-- Config.DEFAULT_LATENCY_THRESHOLD = 150.0 (milliseconds). -/
def DEFAULT_LATENCY_THRESHOLD : ℚ := 150

/-- Config.HEALTH_CHECK_RETENTION_DAYS = 90. -/
def HEALTH_CHECK_RETENTION_DAYS : ℚ := 90

/-- Config.CALL_DATA_RETENTION_DAYS = 180. -/
def CALL_DATA_RETENTION_DAYS : ℚ := 180

/-- Config.ALERT_RETENTION_DAYS = 365. -/
def ALERT_RETENTION_DAYS : ℚ := 365

/-! ## Python primitives used by the embedded code -/

/-- Python's round(x, 1): round to one decimal place. On every value the
score computation produces (exact multiples of 0.5) this is the identity,
so the half-up tie rule chosen here is indistinguishable from CPython's. -/
def round1 (x : ℚ) : ℚ := (⌊10 * x + 1/2⌋ : ℚ) / 10

/-- Python's round(x, 2): round to two decimal places. -/
def round2 (x : ℚ) : ℚ := (⌊100 * x + 1/2⌋ : ℚ) / 100

/-- Python's int(x): truncation toward zero. -/
def pyInt (x : ℚ) : ℤ := if 0 ≤ x then ⌊x⌋ else ⌈x⌉

/-- Python's `s or default` on an optional string: None and the empty
string are falsy and give the default. -/
def pyOr (m : Option String) (d : String) : String :=
  match m with
  | some s => if s = ("" : String) then d else s
  | none => d

/-! ## Quality score (webex_api._calculate_quality_score) -/

/-- The packet-loss deduction band of _calculate_quality_score:
>5 deducts 3, else >2 deducts 1, else >1 deducts 0.5, else 0. -/
def packetLossDeduction (packet_loss : ℚ) : ℚ :=
  if packet_loss > 5 then 3
  else if packet_loss > 2 then 1
  else if packet_loss > 1 then 1/2
  else 0

/-- The jitter deduction band of _calculate_quality_score:
>50 deducts 2, else >30 deducts 1, else >20 deducts 0.5, else 0. -/
def jitterDeduction (jitter : ℚ) : ℚ :=
  if jitter > 50 then 2
  else if jitter > 30 then 1
  else if jitter > 20 then 1/2
  else 0

/-- The latency deduction band of _calculate_quality_score:
>200 deducts 2, else >150 deducts 1, else >100 deducts 0.5, else 0. -/
def latencyDeduction (latency : ℚ) : ℚ :=
  if latency > 200 then 2
  else if latency > 150 then 1
  else if latency > 100 then 1/2
  else 0

/-- WebexAPI._calculate_quality_score: start from 10.0, subtract the three
banded deductions in sequence, then return max(1.0, round(score, 1)). -/
def _calculate_quality_score (packet_loss jitter latency : ℚ) : ℚ :=
  let score : ℚ := 10
  let score := score - packetLossDeduction packet_loss
  let score := score - jitterDeduction jitter
  let score := score - latencyDeduction latency
  max 1 (round1 score)

/-- The quality-score algorithm as the specification words it: 10.0 minus
one banded deduction per metric (highest applicable band only), clamped
below at 1.0 and then rounded to one decimal. Stated independently of the
code embedding so that agreement between the two is a theorem. -/
def specQualityScore (packet_loss jitter latency : ℚ) : ℚ :=
  let deduction :=
    (if packet_loss > 5 then (3 : ℚ) else if packet_loss > 2 then 1 else if packet_loss > 1 then 1/2 else 0)
    + (if jitter > 50 then (2 : ℚ) else if jitter > 30 then 1 else if jitter > 20 then 1/2 else 0)
    + (if latency > 200 then (2 : ℚ) else if latency > 150 then 1 else if latency > 100 then 1/2 else 0)
  round1 (max 1 (10 - deduction))

/-! ## Per-participant quality aggregation (webex_api._calculate_average_quality) -/

/-- One participant's metrics as read from the Webex quality payload:
audio figures and video figures for packet loss, jitter and latency
(each .get with default 0 at the dict boundary). -/
structure ParticipantQuality where
  audio_packetLossPercent : ℚ
  audio_jitter : ℚ
  audio_latency : ℚ
  video_packetLossPercent : ℚ
  video_jitter : ℚ
  video_latency : ℚ
deriving Repr, DecidableEq

/-- The running totals held across the participant loop. -/
structure QualityTotals where
  total_packet_loss : ℚ
  total_jitter : ℚ
  total_latency : ℚ
deriving Repr, DecidableEq

/-- One metric's update inside the participant loop of
_calculate_average_quality: the audio figure is always added; the video
figure is then also added when it exceeds the current running total
(which already includes this participant's audio figure) divided by the
total participant count. -/
def foldMetricTotal (n : ℚ) (total audio video : ℚ) : ℚ :=
  let total := total + audio
  if video > total / n then total + video else total

/-- The body of the participant loop of _calculate_average_quality,
applied to all three metrics. -/
def accumulate_quality (n : ℚ) (acc : QualityTotals) (m : ParticipantQuality) : QualityTotals :=
  { total_packet_loss := foldMetricTotal n acc.total_packet_loss m.audio_packetLossPercent m.video_packetLossPercent,
    total_jitter := foldMetricTotal n acc.total_jitter m.audio_jitter m.video_jitter,
    total_latency := foldMetricTotal n acc.total_latency m.audio_latency m.video_latency }

/-- The aggregate metrics dict returned by _calculate_average_quality. -/
structure QualityMetricsAvg where
  packet_loss_percent : ℚ
  jitter_ms : ℚ
  latency_ms : ℚ
  call_quality_score : ℚ
deriving Repr, DecidableEq

/-- WebexAPI._calculate_average_quality: loop over the participants
accumulating the three totals, then divide each by the participant count,
round to two decimals, and score the unrounded averages. Returns none for
an empty list (the Python code returns an empty dict there). -/
def _calculate_average_quality (quality_metrics : List ParticipantQuality) : Option QualityMetricsAvg :=
  let total_participants : ℕ := quality_metrics.length
  if total_participants = 0 then none
  else
    let n : ℚ := (total_participants : ℚ)
    let totals := quality_metrics.foldl (accumulate_quality n) ⟨0, 0, 0⟩
    some { packet_loss_percent := round2 (totals.total_packet_loss / n),
           jitter_ms := round2 (totals.total_jitter / n),
           latency_ms := round2 (totals.total_latency / n),
           call_quality_score := _calculate_quality_score
             (totals.total_packet_loss / n) (totals.total_jitter / n) (totals.total_latency / n) }

/-- The aggregation rule as the claim words it: the mean of the
participants' audio figures, except that a participant's video figure is
additionally added into the total whenever it exceeds that participant's
running audio-only average (audio figures seen so far, divided by the
number of participants seen so far). f projects the audio figure, g the
video figure. -/
def claimAudioOnlyTotal (f g : ParticipantQuality → ℚ) : List ParticipantQuality → ℚ → ℚ → ℚ → ℚ
  | [], _, total, _ => total
  | m :: rest, audio_sum, total, seen =>
      let audio_sum := audio_sum + f m
      let seen := seen + 1
      let total := total + f m + (if g m > audio_sum / seen then g m else 0)
      claimAudioOnlyTotal f g rest audio_sum total seen

/-- The per-metric aggregate as the claim words it (see
claimAudioOnlyTotal), rounded to two decimals. -/
def claimAggregate (f g : ParticipantQuality → ℚ) (ms : List ParticipantQuality) : ℚ :=
  round2 (claimAudioOnlyTotal f g ms 0 0 0 / (ms.length : ℚ))

/-- The total the code actually accumulates, written as a plain recursion
(the amended description of the aggregation): the audio figure is added,
and the video figure is folded in whenever it exceeds the accumulated
total so far (audio figures and previously folded video figures of all
participants processed, including this participant's audio figure)
divided by the total participant count n. -/
def amendedTotal (f g : ParticipantQuality → ℚ) (n : ℚ) : List ParticipantQuality → ℚ → ℚ
  | [], total => total
  | m :: rest, total =>
      amendedTotal f g n rest
        (if g m > (total + f m) / n then total + f m + g m else total + f m)

/-- A concrete two-participant input separating the code's aggregation
from the claimed one: the first participant reports audio packet loss 4
and video packet loss 3, the second reports zeros. -/
def exParticipants : List ParticipantQuality :=
  [{ audio_packetLossPercent := 4, audio_jitter := 0, audio_latency := 0,
     video_packetLossPercent := 3, video_jitter := 0, video_latency := 0 },
   { audio_packetLossPercent := 0, audio_jitter := 0, audio_latency := 0,
     video_packetLossPercent := 0, video_jitter := 0, video_latency := 0 }]

/-! ## Alerts (scheduler.create_alert call sites) -/

/-- The fields of an Alert row created by scheduler.create_alert. -/
structure AlertRec where
  alert_type : String
  severity : String
  title : String
  description : String
deriving Repr, DecidableEq

/-- The health_check_fail alert raised in perform_health_check: high
severity; description uses the captured error text, with the default
text used when none was captured (Python `or`). -/
def health_check_fail_alert (roomName : String) (error_message : Option String) : AlertRec :=
  { alert_type := ("health_check_fail" : String),
    severity := ("high" : String),
    title := ("Health Check Failed - " : String) ++ roomName,
    description := ("Health check failed for room " : String) ++ roomName
      ++ (". Error: " : String) ++ pyOr error_message ("Device offline or unreachable") }

/-- The poor_call_quality alert raised in end_test_call: medium severity;
the description reports all three measured values. -/
def poor_quality_alert (roomName : String) (packet_loss jitter latency : ℚ) : AlertRec :=
  { alert_type := ("poor_call_quality" : String),
    severity := ("medium" : String),
    title := ("Poor Call Quality - " : String) ++ roomName,
    description := ("Call quality below threshold: Packet Loss: " : String)
      ++ toString packet_loss ++ ("%, Jitter: " : String)
      ++ toString jitter ++ ("ms, Latency: " : String)
      ++ toString latency ++ ("ms" : String) }

/-! ## Health checks (scheduler.perform_health_check) -/

/-- The fields of the RoomOS device-status payload consulted by the
direct-probe branch (dict .get defaults applied at the boundary:
device_online defaults to False, peripheral statuses to unknown). -/
structure DeviceStatusData where
  device_online : Bool
  camera_status : String
  microphone_status : String
  speaker_status : String
deriving Repr, DecidableEq

/-- Outcome of RoomOSAPI.get_device_status: success with data, or a
transport failure carrying the error text (absent when the result dict
has no error key; the code then substitutes the text Unknown error). -/
inductive ProbeOutcome where
  | ok (data : DeviceStatusData)
  | err (error : Option String)
deriving Repr, DecidableEq

/-- The cloud device payload consulted by the Webex branch. -/
structure CloudDeviceData where
  connectionStatus : String
  software : Option String
deriving Repr, DecidableEq

/-- Outcome of WebexAPI.get_device_status. -/
inductive CloudOutcome where
  | ok (data : CloudDeviceData)
  | err (error : Option String)
deriving Repr, DecidableEq

/-- Which probe applies to the room: a direct RoomOS probe when an IP
address is configured, else the cloud probe when an external room id is
configured, else no probe at all. -/
inductive ProbeInput where
  | direct (res : ProbeOutcome)
  | cloud (res : CloudOutcome)
  | unconfigured
deriving Repr, DecidableEq

/-- The HealthCheck row written by perform_health_check. -/
structure HealthCheckRec where
  status : String
  device_online : Bool
  camera_status : Option String
  microphone_status : Option String
  speaker_status : Option String
  error_message : Option String
deriving Repr, DecidableEq

/-- Everything perform_health_check persists or raises: the HealthCheck
row, the room's new status and last_health_check timestamp, the alerts
created, and whether a probe was attempted at all. -/
structure HealthOutcome where
  health_check : HealthCheckRec
  room_status : String
  last_health_check : ℚ
  alerts : List AlertRec
  probe_attempted : Bool
deriving Repr, DecidableEq

/-- The HealthCheck row and room status derived from the probe input,
mirroring the three branches of perform_health_check. -/
def healthCheckBody (input : ProbeInput) : HealthCheckRec × String :=
  match input with
  | .direct (.ok data) =>
      if data.device_online then
        if data.camera_status = ("connected" : String)
            ∧ data.microphone_status = ("connected" : String)
            ∧ data.speaker_status = ("connected" : String) then
          ({ status := ("pass" : String), device_online := true,
             camera_status := some data.camera_status,
             microphone_status := some data.microphone_status,
             speaker_status := some data.speaker_status,
             error_message := none }, ("online" : String))
        else
          ({ status := ("warning" : String), device_online := true,
             camera_status := some data.camera_status,
             microphone_status := some data.microphone_status,
             speaker_status := some data.speaker_status,
             error_message := none }, ("warning" : String))
      else
        ({ status := ("fail" : String), device_online := false,
           camera_status := some data.camera_status,
           microphone_status := some data.microphone_status,
           speaker_status := some data.speaker_status,
           error_message := none }, ("offline" : String))
  | .direct (.err e) =>
      ({ status := ("fail" : String), device_online := false,
         camera_status := none, microphone_status := none, speaker_status := none,
         error_message := some (e.getD ("Unknown error")) }, ("error" : String))
  | .cloud (.ok data) =>
      if data.connectionStatus = ("connected" : String) then
        ({ status := ("pass" : String), device_online := true,
           camera_status := none, microphone_status := none, speaker_status := none,
           error_message := none }, ("online" : String))
      else
        ({ status := ("fail" : String), device_online := false,
           camera_status := none, microphone_status := none, speaker_status := none,
           error_message := none }, ("offline" : String))
  | .cloud (.err e) =>
      ({ status := ("fail" : String), device_online := false,
         camera_status := none, microphone_status := none, speaker_status := none,
         error_message := some (e.getD ("Unknown error")) }, ("error" : String))
  | .unconfigured =>
      ({ status := ("fail" : String), device_online := false,
         camera_status := none, microphone_status := none, speaker_status := none,
         error_message := some ("No IP address or Room ID configured") }, ("error" : String))

/-- scheduler.perform_health_check: derive the HealthCheck row and room
status, stamp the room's last_health_check with the current time, and
raise one health_check_fail alert exactly when the verdict is fail. -/
def perform_health_check (roomName : String) (now : ℚ) (input : ProbeInput) : HealthOutcome :=
  let body := healthCheckBody input
  { health_check := body.1,
    room_status := body.2,
    last_health_check := now,
    alerts :=
      if body.1.status = ("fail" : String) then
        [health_check_fail_alert roomName body.1.error_message]
      else [],
    probe_attempted :=
      match input with
      | .unconfigured => false
      | _ => true }

/-! ## Test-call start (scheduler.perform_test_call) -/

/-- The meeting payload returned by WebexAPI.create_meeting. -/
structure MeetingData where
  id : String
  webLink : Option String
deriving Repr, DecidableEq

/-- Outcome of WebexAPI.create_meeting. -/
inductive MeetingResult where
  | ok (meeting : MeetingData)
  | err (error : Option String)
deriving Repr, DecidableEq

/-- What perform_test_call does to the TestCall record: the sequence of
statuses written, the captured call id and error, and whether the
teardown job was scheduled. -/
structure TestCallFlow where
  statuses : List String
  call_id : Option String
  error_message : Option String
  teardown_scheduled : Bool
deriving Repr, DecidableEq

/-- scheduler.perform_test_call, from meeting creation onward: the record
is created with status scheduled; on creation failure it moves straight
to failed with the error captured and no teardown job is scheduled; on
success it moves to started, captures the meeting id, and schedules the
teardown job. -/
def perform_test_call (meeting_result : MeetingResult) : TestCallFlow :=
  match meeting_result with
  | .err e =>
      { statuses := [("scheduled" : String), ("failed" : String)],
        call_id := none,
        error_message := some (("Failed to create meeting: " : String) ++ e.getD ("None")),
        teardown_scheduled := false }
  | .ok meeting =>
      { statuses := [("scheduled" : String), ("started" : String)],
        call_id := some meeting.id,
        error_message := none,
        teardown_scheduled := true }

/-! ## Test-call teardown (scheduler.end_test_call) -/

/-- Outcome of WebexAPI.get_meeting_quality: the averaged metrics, or a
failure result carrying an error text. -/
inductive QualityResult where
  | ok (metrics : QualityMetricsAvg)
  | err (error : String)
deriving Repr, DecidableEq

/-- The TestCall row as left by a completed teardown. -/
structure TestCallFinal where
  status : String
  duration_seconds : Option ℤ
  packet_loss_percent : Option ℚ
  jitter_ms : Option ℚ
  latency_ms : Option ℚ
  call_quality_score : Option ℚ
  resolution : Option String
  frame_rate : Option ℕ
  audio_quality : Option String
  video_quality : Option String
  error_message : Option String
deriving Repr, DecidableEq

/-- Everything a teardown run persists or attempts: the final TestCall
row, how many meeting-deletion attempts were made, and the alerts
raised. -/
structure EndCallOutcome where
  test_call : TestCallFinal
  delete_attempts : ℕ
  alerts : List AlertRec
deriving Repr, DecidableEq

/-- scheduler.end_test_call on its non-exception path: compute the
duration as int((now - timestamp).total_seconds()) when the scheduled
timestamp is set; when a call id exists, fetch quality metrics — on a
success result persist them (and the fixed media descriptors), raising a
poor_call_quality alert when any measured value strictly exceeds its
threshold; on a failure result persist nothing; in either case attempt
exactly one meeting deletion — and finally mark the call completed. -/
def end_test_call (roomName : String) (now : ℚ) (timestamp : Option ℚ)
    (call_id : Option String) (quality_result : QualityResult) : EndCallOutcome :=
  let dur : Option ℤ := timestamp.map (fun t => pyInt (now - t))
  match call_id with
  | none =>
      { test_call :=
          { status := ("completed" : String), duration_seconds := dur,
            packet_loss_percent := none, jitter_ms := none, latency_ms := none,
            call_quality_score := none, resolution := none, frame_rate := none,
            audio_quality := none, video_quality := none, error_message := none },
        delete_attempts := 0, alerts := [] }
  | some _ =>
      match quality_result with
      | .err _ =>
          { test_call :=
              { status := ("completed" : String), duration_seconds := dur,
                packet_loss_percent := none, jitter_ms := none, latency_ms := none,
                call_quality_score := none, resolution := none, frame_rate := none,
                audio_quality := none, video_quality := none, error_message := none },
            delete_attempts := 1, alerts := [] }
      | .ok metrics =>
          { test_call :=
              { status := ("completed" : String), duration_seconds := dur,
                packet_loss_percent := some metrics.packet_loss_percent,
                jitter_ms := some metrics.jitter_ms,
                latency_ms := some metrics.latency_ms,
                call_quality_score := some metrics.call_quality_score,
                resolution := some ("1920x1080"), frame_rate := some 30,
                audio_quality := some ("good"), video_quality := some ("good"),
                error_message := none },
            delete_attempts := 1,
            alerts :=
              if metrics.packet_loss_percent > DEFAULT_PACKET_LOSS_THRESHOLD
                  ∨ metrics.jitter_ms > DEFAULT_JITTER_THRESHOLD
                  ∨ metrics.latency_ms > DEFAULT_LATENCY_THRESHOLD then
                [poor_quality_alert roomName metrics.packet_loss_percent metrics.jitter_ms metrics.latency_ms]
              else [] }

/-! ## Retention sweep (scheduler.cleanup_old_data) -/

/-- A HealthCheck row as the sweep sees it (timestamps in days). -/
structure HealthCheckRow where
  timestamp : ℚ
deriving Repr, DecidableEq

/-- A TestCall row as the sweep sees it. -/
structure TestCallRow where
  timestamp : ℚ
deriving Repr, DecidableEq

/-- An Alert row as the sweep sees it. -/
structure AlertRow where
  timestamp : ℚ
  status : String
deriving Repr, DecidableEq

/-- The three tables the retention sweep touches. -/
structure MonitorDB where
  health_checks : List HealthCheckRow
  test_calls : List TestCallRow
  alerts : List AlertRow
deriving Repr, DecidableEq

/-- scheduler.cleanup_old_data: delete HealthCheck rows with timestamp
before now minus the health-check retention window, TestCall rows before
now minus the call-data window, and Alert rows that are both before now
minus the alert window and currently resolved. -/
def cleanup_old_data (now : ℚ) (db : MonitorDB) : MonitorDB :=
  let cutoff_health_checks := now - HEALTH_CHECK_RETENTION_DAYS
  let cutoff_call_data := now - CALL_DATA_RETENTION_DAYS
  let cutoff_alerts := now - ALERT_RETENTION_DAYS
  { health_checks := db.health_checks.filter
      (fun h => decide (¬ h.timestamp < cutoff_health_checks)),
    test_calls := db.test_calls.filter
      (fun t => decide (¬ t.timestamp < cutoff_call_data)),
    alerts := db.alerts.filter
      (fun a => decide (¬ (a.timestamp < cutoff_alerts ∧ a.status = ("resolved" : String)))) }

/-! ## Lemmas about the quality score -/

theorem packetLossDeduction_cases (p : ℚ) :
    ∃ k : ℕ, k ≤ 6 ∧ packetLossDeduction p = (k : ℚ) / 2 := by
  unfold packetLossDeduction
  split_ifs
  · exact ⟨6, by norm_num⟩
  · exact ⟨2, by norm_num⟩
  · exact ⟨1, by norm_num⟩
  · exact ⟨0, by norm_num⟩

theorem jitterDeduction_cases (j : ℚ) :
    ∃ k : ℕ, k ≤ 4 ∧ jitterDeduction j = (k : ℚ) / 2 := by
  unfold jitterDeduction
  split_ifs
  · exact ⟨4, by norm_num⟩
  · exact ⟨2, by norm_num⟩
  · exact ⟨1, by norm_num⟩
  · exact ⟨0, by norm_num⟩

theorem latencyDeduction_cases (l : ℚ) :
    ∃ k : ℕ, k ≤ 4 ∧ latencyDeduction l = (k : ℚ) / 2 := by
  unfold latencyDeduction
  split_ifs
  · exact ⟨4, by norm_num⟩
  · exact ⟨2, by norm_num⟩
  · exact ⟨1, by norm_num⟩
  · exact ⟨0, by norm_num⟩

theorem packetLossDeduction_mono {p p' : ℚ} (h : p ≤ p') :
    packetLossDeduction p ≤ packetLossDeduction p' := by
  unfold packetLossDeduction
  split_ifs <;> linarith

theorem jitterDeduction_mono {j j' : ℚ} (h : j ≤ j') :
    jitterDeduction j ≤ jitterDeduction j' := by
  unfold jitterDeduction
  split_ifs <;> linarith

theorem latencyDeduction_mono {l l' : ℚ} (h : l ≤ l') :
    latencyDeduction l ≤ latencyDeduction l' := by
  unfold latencyDeduction
  split_ifs <;> linarith

theorem round1_half_int (k : ℤ) : round1 ((k : ℚ) / 2) = (k : ℚ) / 2 := by
  unfold round1
  have harg : (10 : ℚ) * ((k : ℚ) / 2) + 1/2 = 1/2 + ((5 * k : ℤ) : ℚ) := by
    push_cast
    ring
  rw [harg, Int.floor_add_int]
  have h12 : ⌊(1/2 : ℚ)⌋ = 0 := by norm_num
  rw [h12]
  push_cast
  ring

theorem score_closed_form (p j l : ℚ) :
    _calculate_quality_score p j l
      = 10 - (packetLossDeduction p + jitterDeduction j + latencyDeduction l) := by
  obtain ⟨a, ha6, ha⟩ := packetLossDeduction_cases p
  obtain ⟨b, hb4, hb⟩ := jitterDeduction_cases j
  obtain ⟨c, hc4, hc⟩ := latencyDeduction_cases l
  show max 1 (round1 (10 - packetLossDeduction p - jitterDeduction j - latencyDeduction l)) = _
  rw [ha, hb, hc]
  have harg : (10 : ℚ) - (a : ℚ)/2 - (b : ℚ)/2 - (c : ℚ)/2
      = ((20 - (a : ℤ) - (b : ℤ) - (c : ℤ) : ℤ) : ℚ) / 2 := by
    push_cast
    ring
  rw [harg, round1_half_int]
  have hk : (6 : ℤ) ≤ 20 - (a : ℤ) - (b : ℤ) - (c : ℤ) := by omega
  have hkq : (6 : ℚ) ≤ ((20 - (a : ℤ) - (b : ℤ) - (c : ℤ) : ℤ) : ℚ) := by
    exact_mod_cast hk
  rw [max_eq_right (by linarith)]
  push_cast
  ring

theorem deductions_le_seven (p j l : ℚ) :
    packetLossDeduction p + jitterDeduction j + latencyDeduction l ≤ 7 := by
  obtain ⟨a, ha6, ha⟩ := packetLossDeduction_cases p
  obtain ⟨b, hb4, hb⟩ := jitterDeduction_cases j
  obtain ⟨c, hc4, hc⟩ := latencyDeduction_cases l
  rw [ha, hb, hc]
  have haq : (a : ℚ) ≤ 6 := by exact_mod_cast ha6
  have hbq : (b : ℚ) ≤ 4 := by exact_mod_cast hb4
  have hcq : (c : ℚ) ≤ 4 := by exact_mod_cast hc4
  linarith

theorem deductions_nonneg (p j l : ℚ) :
    0 ≤ packetLossDeduction p + jitterDeduction j + latencyDeduction l := by
  obtain ⟨a, _, ha⟩ := packetLossDeduction_cases p
  obtain ⟨b, _, hb⟩ := jitterDeduction_cases j
  obtain ⟨c, _, hc⟩ := latencyDeduction_cases l
  rw [ha, hb, hc]
  positivity

/-- C1: for every triple of non-negative measured values, the quality
score function agrees with the specification's banded description (10.0
minus one deduction per metric, highest applicable band only, clamped
below at 1.0 and rounded to one decimal); it is monotonically
non-increasing in each argument, its result lies in the interval from
1.0 to 10.0, and on input (6, 10, 50) it returns 7.0. -/
theorem quality_score_bands_monotone_bounded :
    (∀ p j l : ℚ, 0 ≤ p → 0 ≤ j → 0 ≤ l →
        _calculate_quality_score p j l = specQualityScore p j l)
  ∧ (∀ p p' j l : ℚ, p ≤ p' →
        _calculate_quality_score p' j l ≤ _calculate_quality_score p j l)
  ∧ (∀ p j j' l : ℚ, j ≤ j' →
        _calculate_quality_score p j' l ≤ _calculate_quality_score p j l)
  ∧ (∀ p j l l' : ℚ, l ≤ l' →
        _calculate_quality_score p j l' ≤ _calculate_quality_score p j l)
  ∧ (∀ p j l : ℚ,
        1 ≤ _calculate_quality_score p j l ∧ _calculate_quality_score p j l ≤ 10)
  ∧ _calculate_quality_score 6 10 50 = 7 := by
  refine ⟨?_, ?_, ?_, ?_, ?_, ?_⟩
  · intro p j l _ _ _
    rw [score_closed_form]
    show _ = round1 (max 1 (10 - (packetLossDeduction p + jitterDeduction j + latencyDeduction l)))
    obtain ⟨a, ha6, ha⟩ := packetLossDeduction_cases p
    obtain ⟨b, hb4, hb⟩ := jitterDeduction_cases j
    obtain ⟨c, hc4, hc⟩ := latencyDeduction_cases l
    rw [ha, hb, hc]
    have harg : (10 : ℚ) - ((a : ℚ)/2 + (b : ℚ)/2 + (c : ℚ)/2)
        = ((20 - (a : ℤ) - (b : ℤ) - (c : ℤ) : ℤ) : ℚ) / 2 := by
      push_cast
      ring
    have hk : (6 : ℤ) ≤ 20 - (a : ℤ) - (b : ℤ) - (c : ℤ) := by omega
    have hkq : (6 : ℚ) ≤ ((20 - (a : ℤ) - (b : ℤ) - (c : ℤ) : ℤ) : ℚ) := by
      exact_mod_cast hk
    rw [harg, max_eq_right (by linarith), round1_half_int]
  · intro p p' j l h
    rw [score_closed_form, score_closed_form]
    have := packetLossDeduction_mono h
    linarith
  · intro p j j' l h
    rw [score_closed_form, score_closed_form]
    have := jitterDeduction_mono h
    linarith
  · intro p j l l' h
    rw [score_closed_form, score_closed_form]
    have := latencyDeduction_mono h
    linarith
  · intro p j l
    rw [score_closed_form]
    have h7 := deductions_le_seven p j l
    have h0 := deductions_nonneg p j l
    constructor <;> linarith
  · rw [score_closed_form]
    norm_num [packetLossDeduction, jitterDeduction, latencyDeduction]

/-- C9: the total deduction applied by the quality score function is at
most 7, so the clamp at 1.0 never binds (the score equals 10 minus the
total deduction outright), the result always lies in the interval from
3.0 to 10.0, and it moves in steps of 0.5 (it equals 10 minus n/2 for
some natural number n at most 14). -/
theorem quality_score_lower_bound_three :
    (∀ p j l : ℚ,
        packetLossDeduction p + jitterDeduction j + latencyDeduction l ≤ 7)
  ∧ (∀ p j l : ℚ, _calculate_quality_score p j l
        = 10 - (packetLossDeduction p + jitterDeduction j + latencyDeduction l))
  ∧ (∀ p j l : ℚ,
        3 ≤ _calculate_quality_score p j l ∧ _calculate_quality_score p j l ≤ 10)
  ∧ (∀ p j l : ℚ, ∃ n : ℕ, n ≤ 14
        ∧ _calculate_quality_score p j l = 10 - (n : ℚ) / 2) := by
  refine ⟨deductions_le_seven, score_closed_form, ?_, ?_⟩
  · intro p j l
    rw [score_closed_form]
    have h7 := deductions_le_seven p j l
    have h0 := deductions_nonneg p j l
    constructor <;> linarith
  · intro p j l
    obtain ⟨a, ha6, ha⟩ := packetLossDeduction_cases p
    obtain ⟨b, hb4, hb⟩ := jitterDeduction_cases j
    obtain ⟨c, hc4, hc⟩ := latencyDeduction_cases l
    refine ⟨a + b + c, by omega, ?_⟩
    rw [score_closed_form, ha, hb, hc]
    push_cast
    ring

/-! ## Lemmas about health checks -/

theorem health_check_alert_iff_fail (roomName : String) (now : ℚ) (input : ProbeInput) :
    (perform_health_check roomName now input).alerts.length = 1
      ↔ (perform_health_check roomName now input).health_check.status = ("fail" : String) := by
  by_cases hs : (healthCheckBody input).1.status = ("fail" : String) <;>
    simp [perform_health_check, hs]

/-- C2: on the direct-probe path, a transport failure yields verdict fail,
room status error, and the probe's error text recorded verbatim; a
successful probe reporting the device unreachable yields fail and room
status offline; a reachable device with camera, microphone and speaker
all connected yields pass and room status online; a reachable device with
any peripheral not connected yields warning and room status warning; and
a high-severity health_check_fail alert is raised exactly when the
verdict is fail, with the default message text used when no error was
captured. -/
theorem direct_probe_health_check :
    (∀ room : String, ∀ now : ℚ, ∀ e : String,
        (perform_health_check room now (.direct (.err (some e)))).health_check.status = ("fail" : String)
      ∧ (perform_health_check room now (.direct (.err (some e)))).room_status = ("error" : String)
      ∧ (perform_health_check room now (.direct (.err (some e)))).health_check.error_message = some e)
  ∧ (∀ room : String, ∀ now : ℚ, ∀ d : DeviceStatusData, d.device_online = false →
        (perform_health_check room now (.direct (.ok d))).health_check.status = ("fail" : String)
      ∧ (perform_health_check room now (.direct (.ok d))).room_status = ("offline" : String)
      ∧ (perform_health_check room now (.direct (.ok d))).alerts
          = [{ alert_type := ("health_check_fail" : String),
               severity := ("high" : String),
               title := ("Health Check Failed - " : String) ++ room,
               description := ("Health check failed for room " : String) ++ room
                 ++ (". Error: Device offline or unreachable" : String) }])
  ∧ (∀ room : String, ∀ now : ℚ, ∀ d : DeviceStatusData, d.device_online = true →
        d.camera_status = ("connected" : String) →
        d.microphone_status = ("connected" : String) →
        d.speaker_status = ("connected" : String) →
        (perform_health_check room now (.direct (.ok d))).health_check.status = ("pass" : String)
      ∧ (perform_health_check room now (.direct (.ok d))).room_status = ("online" : String))
  ∧ (∀ room : String, ∀ now : ℚ, ∀ d : DeviceStatusData, d.device_online = true →
        ¬ (d.camera_status = ("connected" : String)
            ∧ d.microphone_status = ("connected" : String)
            ∧ d.speaker_status = ("connected" : String)) →
        (perform_health_check room now (.direct (.ok d))).health_check.status = ("warning" : String)
      ∧ (perform_health_check room now (.direct (.ok d))).room_status = ("warning" : String)
      ∧ (perform_health_check room now (.direct (.ok d))).alerts = [])
  ∧ (∀ room : String, ∀ now : ℚ, ∀ res : ProbeOutcome,
        (perform_health_check room now (.direct res)).alerts.length = 1
          ↔ (perform_health_check room now (.direct res)).health_check.status = ("fail" : String)) := by
  refine ⟨?_, ?_, ?_, ?_, ?_⟩
  · intro room now e
    refine ⟨rfl, rfl, rfl⟩
  · intro room now d hd
    refine ⟨?_, ?_, ?_⟩
    · simp [perform_health_check, healthCheckBody, hd]
    · simp [perform_health_check, healthCheckBody, hd]
    · simp [perform_health_check, healthCheckBody, hd, health_check_fail_alert, pyOr]
      rw [String.append_assoc]
      rfl
  · intro room now d hd hc hm hs
    constructor <;> simp [perform_health_check, healthCheckBody, hd, hc, hm, hs]
  · intro room now d hd hnot
    refine ⟨?_, ?_, ?_⟩ <;>
      simp [perform_health_check, healthCheckBody, hd, if_neg hnot]
  · intro room now res
    exact health_check_alert_iff_fail room now (.direct res)

/-- C5 counterexample: for a room with neither address nor external room
id, the recorded error text is the literal string
No IP address or Room ID configured, not the claimed text
not configured. -/
theorem unconfigured_error_text_counterexample :
    (perform_health_check ("Conf Room A") 0 ProbeInput.unconfigured).health_check.error_message
      = some ("No IP address or Room ID configured")
  ∧ (perform_health_check ("Conf Room A") 0 ProbeInput.unconfigured).health_check.error_message
      ≠ some ("not configured") := by
  constructor
  · rfl
  · intro h
    have h2 : ("No IP address or Room ID configured" : String) = ("not configured" : String) :=
      Option.some.inj h
    exact absurd h2 (by decide)

/-- C5 (amended): for every room with no configured device address and no
external room id, a health check performs no probe and always produces a
HealthCheck with verdict fail and error text
No IP address or Room ID configured, sets the room status to error,
updates the room's last_health_check timestamp, and raises exactly one
health_check_fail alert. -/
theorem unconfigured_health_check :
    ∀ room : String, ∀ now : ℚ,
      (perform_health_check room now ProbeInput.unconfigured).probe_attempted = false
    ∧ (perform_health_check room now ProbeInput.unconfigured).health_check.status = ("fail" : String)
    ∧ (perform_health_check room now ProbeInput.unconfigured).health_check.error_message
        = some ("No IP address or Room ID configured")
    ∧ (perform_health_check room now ProbeInput.unconfigured).room_status = ("error" : String)
    ∧ (perform_health_check room now ProbeInput.unconfigured).last_health_check = now
    ∧ (perform_health_check room now ProbeInput.unconfigured).alerts.length = 1
    ∧ (perform_health_check room now ProbeInput.unconfigured).alerts
        = [health_check_fail_alert room (some ("No IP address or Room ID configured"))] := by
  intro room now
  refine ⟨rfl, rfl, rfl, rfl, rfl, ?_, ?_⟩ <;>
    simp [perform_health_check, healthCheckBody]

/-! ## Lemmas about test calls -/

/-- C8: a test call whose meeting-creation step fails transitions
directly from scheduled to failed with the creation error captured in its
error field, and no teardown job is scheduled; on creation success the
teardown job is scheduled. -/
theorem meeting_creation_failure_no_teardown :
    (∀ e : Option String,
        (perform_test_call (.err e)).statuses = [("scheduled" : String), ("failed" : String)]
      ∧ (perform_test_call (.err e)).teardown_scheduled = false
      ∧ (perform_test_call (.err e)).call_id = none)
  ∧ (∀ s : String, (perform_test_call (.err (some s))).error_message
        = some (("Failed to create meeting: " : String) ++ s))
  ∧ (∀ m : MeetingData, (perform_test_call (.ok m)).teardown_scheduled = true) := by
  refine ⟨?_, ?_, ?_⟩
  · intro e
    refine ⟨rfl, rfl, rfl⟩
  · intro s
    rfl
  · intro m
    rfl

/-- C3: for every teardown that runs to completion, the persisted
duration_seconds equals the floor of the teardown time minus the call's
creation timestamp (the code's int() truncation, which on the
non-negative elapsed time is rounding down to whole seconds), and exactly
one meeting-deletion attempt is made regardless of the metrics-fetch
outcome. -/
theorem end_test_call_duration_and_delete :
    (∀ room : String, ∀ now t : ℚ, ∀ cid : String, ∀ q : QualityResult, t ≤ now →
        (end_test_call room now (some t) (some cid) q).test_call.duration_seconds
          = some ⌊now - t⌋)
  ∧ (∀ room : String, ∀ now : ℚ, ∀ ts : Option ℚ, ∀ cid : String, ∀ q : QualityResult,
        (end_test_call room now ts (some cid) q).delete_attempts = 1
      ∧ (end_test_call room now ts (some cid) q).test_call.status = ("completed" : String)) := by
  constructor
  · intro room now t cid q h
    have hnn : 0 ≤ now - t := by linarith
    have hpy : pyInt (now - t) = ⌊now - t⌋ := by
      unfold pyInt
      rw [if_pos hnn]
    cases q <;> simp [end_test_call, hpy]
  · intro room now ts cid q
    cases q <;> exact ⟨rfl, rfl⟩

/-- C10: if at teardown the quality-metrics fetch returns a failure
result, the test call is still marked completed, its
packet-loss/jitter/latency/score and media fields are left unset, no
poor_call_quality alert is raised, and the meeting-deletion attempt is
still made. -/
theorem metrics_fetch_failure_still_completes :
    ∀ room : String, ∀ now : ℚ, ∀ ts : Option ℚ, ∀ cid e : String,
      (end_test_call room now ts (some cid) (.err e)).test_call.status = ("completed" : String)
    ∧ (end_test_call room now ts (some cid) (.err e)).test_call.packet_loss_percent = none
    ∧ (end_test_call room now ts (some cid) (.err e)).test_call.jitter_ms = none
    ∧ (end_test_call room now ts (some cid) (.err e)).test_call.latency_ms = none
    ∧ (end_test_call room now ts (some cid) (.err e)).test_call.call_quality_score = none
    ∧ (end_test_call room now ts (some cid) (.err e)).test_call.resolution = none
    ∧ (end_test_call room now ts (some cid) (.err e)).test_call.frame_rate = none
    ∧ (end_test_call room now ts (some cid) (.err e)).test_call.audio_quality = none
    ∧ (end_test_call room now ts (some cid) (.err e)).test_call.video_quality = none
    ∧ (end_test_call room now ts (some cid) (.err e)).alerts = []
    ∧ (end_test_call room now ts (some cid) (.err e)).delete_attempts = 1 := by
  intro room now ts cid e
  refine ⟨rfl, rfl, rfl, rfl, rfl, rfl, rfl, rfl, rfl, rfl, rfl⟩

/-- C7: for a teardown whose quality-metrics fetch succeeds, a
poor_call_quality alert at medium severity is raised if and only if at
least one of packet loss, jitter or latency strictly exceeds its default
threshold (5.0, 30.0, 150.0); the raised alert reports all three
measured values in its description; and on the example metrics
(3, 35, 160) the score is 7.0 and the alert is raised. -/
theorem poor_quality_alert_iff_threshold :
    (DEFAULT_PACKET_LOSS_THRESHOLD = 5 ∧ DEFAULT_JITTER_THRESHOLD = 30
      ∧ DEFAULT_LATENCY_THRESHOLD = 150)
  ∧ (∀ room : String, ∀ now : ℚ, ∀ ts : Option ℚ, ∀ cid : String, ∀ m : QualityMetricsAvg,
        ((end_test_call room now ts (some cid) (.ok m)).alerts ≠ []
          ↔ (m.packet_loss_percent > DEFAULT_PACKET_LOSS_THRESHOLD
              ∨ m.jitter_ms > DEFAULT_JITTER_THRESHOLD
              ∨ m.latency_ms > DEFAULT_LATENCY_THRESHOLD))
      ∧ ((end_test_call room now ts (some cid) (.ok m)).alerts ≠ [] →
            (end_test_call room now ts (some cid) (.ok m)).alerts
              = [poor_quality_alert room m.packet_loss_percent m.jitter_ms m.latency_ms]))
  ∧ (∀ room : String, ∀ pl j lat : ℚ,
        (poor_quality_alert room pl j lat).severity = ("medium" : String)
      ∧ (poor_quality_alert room pl j lat).alert_type = ("poor_call_quality" : String)
      ∧ (poor_quality_alert room pl j lat).description
          = ("Call quality below threshold: Packet Loss: " : String)
            ++ toString pl ++ ("%, Jitter: " : String)
            ++ toString j ++ ("ms, Latency: " : String)
            ++ toString lat ++ ("ms" : String))
  ∧ _calculate_quality_score 3 35 160 = 7
  ∧ (end_test_call ("Room") 0 none (some ("c")) (.ok ⟨3, 35, 160, 7⟩)).alerts.length = 1 := by
  refine ⟨⟨rfl, rfl, rfl⟩, ?_, ?_, ?_, ?_⟩
  · intro room now ts cid m
    constructor
    · by_cases hb : m.packet_loss_percent > DEFAULT_PACKET_LOSS_THRESHOLD
          ∨ m.jitter_ms > DEFAULT_JITTER_THRESHOLD
          ∨ m.latency_ms > DEFAULT_LATENCY_THRESHOLD <;>
        simp [end_test_call, hb]
    · intro hne
      by_cases hb : m.packet_loss_percent > DEFAULT_PACKET_LOSS_THRESHOLD
          ∨ m.jitter_ms > DEFAULT_JITTER_THRESHOLD
          ∨ m.latency_ms > DEFAULT_LATENCY_THRESHOLD
      · simp [end_test_call, hb]
      · exfalso
        apply hne
        simp [end_test_call, hb]
  · intro room pl j lat
    exact ⟨rfl, rfl, rfl⟩
  · rw [score_closed_form]
    norm_num [packetLossDeduction, jitterDeduction, latencyDeduction]
  · have hb : (3 : ℚ) > DEFAULT_PACKET_LOSS_THRESHOLD
        ∨ (35 : ℚ) > DEFAULT_JITTER_THRESHOLD
        ∨ (160 : ℚ) > DEFAULT_LATENCY_THRESHOLD := by
      right
      left
      norm_num [DEFAULT_JITTER_THRESHOLD]
    simp [end_test_call, hb]

/-- C6: for every retention sweep, a HealthCheck row survives if and only
if it is not older than 90 days, a TestCall row if and only if not older
than 180 days, and an Alert row is deleted if and only if it is both
older than 365 days and currently resolved, so an unresolved alert is
never deleted; a HealthCheck timestamped 91 days before the sweep is
deleted while one timestamped 89 days before is retained. -/
theorem retention_sweep_windows :
    (∀ now : ℚ, ∀ db : MonitorDB, ∀ h : HealthCheckRow,
        h ∈ (cleanup_old_data now db).health_checks
          ↔ h ∈ db.health_checks ∧ ¬ h.timestamp < now - HEALTH_CHECK_RETENTION_DAYS)
  ∧ (∀ now : ℚ, ∀ db : MonitorDB, ∀ t : TestCallRow,
        t ∈ (cleanup_old_data now db).test_calls
          ↔ t ∈ db.test_calls ∧ ¬ t.timestamp < now - CALL_DATA_RETENTION_DAYS)
  ∧ (∀ now : ℚ, ∀ db : MonitorDB, ∀ a : AlertRow,
        a ∈ (cleanup_old_data now db).alerts
          ↔ a ∈ db.alerts
            ∧ ¬ (a.timestamp < now - ALERT_RETENTION_DAYS ∧ a.status = ("resolved" : String)))
  ∧ (∀ now : ℚ, ∀ db : MonitorDB, ∀ a : AlertRow,
        a ∈ db.alerts → a.status ≠ ("resolved" : String) → a ∈ (cleanup_old_data now db).alerts)
  ∧ HealthCheckRow.mk (-91)
      ∉ (cleanup_old_data 0 (MonitorDB.mk [⟨-91⟩, ⟨-89⟩] [] [])).health_checks
  ∧ HealthCheckRow.mk (-89)
      ∈ (cleanup_old_data 0 (MonitorDB.mk [⟨-91⟩, ⟨-89⟩] [] [])).health_checks := by
  refine ⟨?_, ?_, ?_, ?_, ?_, ?_⟩
  · intro now db h
    simp [cleanup_old_data, List.mem_filter]
  · intro now db t
    simp [cleanup_old_data, List.mem_filter]
  · intro now db a
    simp [cleanup_old_data, List.mem_filter]
    intro _
    constructor
    · rintro (h1 | h2) hlt
      · exact absurd hlt (by linarith)
      · exact h2
    · intro h
      rcases lt_or_le a.timestamp (now - ALERT_RETENTION_DAYS) with hlt | hge
      · exact Or.inr (h hlt)
      · exact Or.inl (by linarith)
  · intro now db a ha hs
    simp [cleanup_old_data, List.mem_filter, ha, hs]
  · simp [cleanup_old_data, List.filter, HEALTH_CHECK_RETENTION_DAYS]
    norm_num
  · simp [cleanup_old_data, List.filter, HEALTH_CHECK_RETENTION_DAYS]
    norm_num

/-! ## Lemmas about quality aggregation -/

theorem foldl_eq_amendedTotal (n : ℚ) (ms : List ParticipantQuality) (acc : QualityTotals) :
    ms.foldl (accumulate_quality n) acc
      = ⟨amendedTotal (fun m => m.audio_packetLossPercent) (fun m => m.video_packetLossPercent) n ms acc.total_packet_loss,
         amendedTotal (fun m => m.audio_jitter) (fun m => m.video_jitter) n ms acc.total_jitter,
         amendedTotal (fun m => m.audio_latency) (fun m => m.video_latency) n ms acc.total_latency⟩ := by
  induction ms generalizing acc with
  | nil => rfl
  | cons m rest ih =>
      rw [List.foldl_cons, ih]
      rfl

theorem amendedTotal_all_audio (f g : ParticipantQuality → ℚ) (n : ℚ) (hn : 0 < n) :
    ∀ ms : List ParticipantQuality, ∀ t : ℚ, 0 ≤ t →
      (∀ m ∈ ms, 0 ≤ f m ∧ g m = 0) →
      amendedTotal f g n ms t = t + (ms.map f).sum := by
  intro ms
  induction ms with
  | nil =>
      intro t ht hms
      simp [amendedTotal]
  | cons m rest ih =>
      intro t ht hms
      have hm := hms m (by simp)
      have hrest : ∀ x ∈ rest, 0 ≤ f x ∧ g x = 0 := fun x hx => hms x (by simp [hx])
      have hcond : ¬ g m > (t + f m) / n := by
        rw [hm.2]
        simp only [gt_iff_lt, not_lt]
        exact div_nonneg (by linarith [hm.1]) hn.le
      calc amendedTotal f g n (m :: rest) t
          = amendedTotal f g n rest (t + f m) := by
            simp only [amendedTotal]
            rw [if_neg hcond]
        _ = (t + f m) + (rest.map f).sum := ih (t + f m) (by linarith [hm.1]) hrest
        _ = t + ((m :: rest).map f).sum := by
            simp only [List.map_cons, List.sum_cons]
            ring

/-- C4 counterexample: on the two-participant input exParticipants the
code's aggregate packet loss is 3.5 (the first participant's video
figure is folded in because it exceeds the accumulated total divided by
the participant count), while the claimed rule — fold the video figure in
only when it exceeds the running audio-only average over the
participants seen so far — yields 2.0. -/
theorem average_quality_claim_counterexample :
    _calculate_average_quality exParticipants
      = some { packet_loss_percent := 7/2, jitter_ms := 0, latency_ms := 0,
               call_quality_score := 9 }
  ∧ claimAggregate (fun m => m.audio_packetLossPercent) (fun m => m.video_packetLossPercent)
      exParticipants = 2
  ∧ (7/2 : ℚ) ≠ 2 := by
  have hscore : _calculate_quality_score (7/2) 0 0 = 9 := by
    rw [score_closed_form]
    norm_num [packetLossDeduction, jitterDeduction, latencyDeduction]
  refine ⟨?_, ?_, by norm_num⟩
  · norm_num [_calculate_average_quality, exParticipants, accumulate_quality,
      foldMetricTotal, round2, hscore]
  · norm_num [claimAggregate, claimAudioOnlyTotal, exParticipants, round2]

/-- C4 (amended): for every non-empty participant list the aggregated
packet loss, jitter and latency each equal the mean over all
participants of the audio figures with video figures folded in
additively, where a participant's video figure is folded in exactly when
it exceeds the accumulated total so far (audio figures and previously
folded video figures, including that participant's audio figure) divided
by the total participant count — not the running audio-only average; the
aggregates are rounded to two decimals, and when every video figure is
zero (and audio figures are non-negative) the aggregate is the plain
audio mean. -/
theorem average_quality_amended :
    (∀ ms : List ParticipantQuality, ms ≠ [] →
        _calculate_average_quality ms
          = some { packet_loss_percent := round2 (amendedTotal (fun m => m.audio_packetLossPercent) (fun m => m.video_packetLossPercent) (ms.length : ℚ) ms 0 / (ms.length : ℚ)),
                   jitter_ms := round2 (amendedTotal (fun m => m.audio_jitter) (fun m => m.video_jitter) (ms.length : ℚ) ms 0 / (ms.length : ℚ)),
                   latency_ms := round2 (amendedTotal (fun m => m.audio_latency) (fun m => m.video_latency) (ms.length : ℚ) ms 0 / (ms.length : ℚ)),
                   call_quality_score := _calculate_quality_score
                     (amendedTotal (fun m => m.audio_packetLossPercent) (fun m => m.video_packetLossPercent) (ms.length : ℚ) ms 0 / (ms.length : ℚ))
                     (amendedTotal (fun m => m.audio_jitter) (fun m => m.video_jitter) (ms.length : ℚ) ms 0 / (ms.length : ℚ))
                     (amendedTotal (fun m => m.audio_latency) (fun m => m.video_latency) (ms.length : ℚ) ms 0 / (ms.length : ℚ)) })
  ∧ (∀ ms : List ParticipantQuality, ms ≠ [] →
        (∀ m ∈ ms, 0 ≤ m.audio_packetLossPercent ∧ m.video_packetLossPercent = 0) →
        (_calculate_average_quality ms).map QualityMetricsAvg.packet_loss_percent
          = some (round2 ((ms.map (fun m => m.audio_packetLossPercent)).sum / (ms.length : ℚ)))) := by
  have main : ∀ ms : List ParticipantQuality, ms ≠ [] →
      _calculate_average_quality ms
        = some { packet_loss_percent := round2 (amendedTotal (fun m => m.audio_packetLossPercent) (fun m => m.video_packetLossPercent) (ms.length : ℚ) ms 0 / (ms.length : ℚ)),
                 jitter_ms := round2 (amendedTotal (fun m => m.audio_jitter) (fun m => m.video_jitter) (ms.length : ℚ) ms 0 / (ms.length : ℚ)),
                 latency_ms := round2 (amendedTotal (fun m => m.audio_latency) (fun m => m.video_latency) (ms.length : ℚ) ms 0 / (ms.length : ℚ)),
                 call_quality_score := _calculate_quality_score
                   (amendedTotal (fun m => m.audio_packetLossPercent) (fun m => m.video_packetLossPercent) (ms.length : ℚ) ms 0 / (ms.length : ℚ))
                   (amendedTotal (fun m => m.audio_jitter) (fun m => m.video_jitter) (ms.length : ℚ) ms 0 / (ms.length : ℚ))
                   (amendedTotal (fun m => m.audio_latency) (fun m => m.video_latency) (ms.length : ℚ) ms 0 / (ms.length : ℚ)) } := by
    intro ms hms
    have hlen : ms.length ≠ 0 := fun h => hms (List.length_eq_zero.mp h)
    simp only [_calculate_average_quality]
    rw [if_neg hlen, foldl_eq_amendedTotal]
  refine ⟨main, ?_⟩
  intro ms hms hall
  have hlen : ms.length ≠ 0 := fun h => hms (List.length_eq_zero.mp h)
  have hn : 0 < (ms.length : ℚ) := by
    exact_mod_cast Nat.pos_of_ne_zero hlen
  rw [main ms hms]
  simp only [Option.map_some']
  rw [amendedTotal_all_audio _ _ _ hn ms 0 le_rfl hall, zero_add]

end TitanMonitor
